import Mathlib

/-!
Shallow embedding of `src/programs/cpamm/src/account_validators.rs`:
the account-validation layer of a constant-product AMM.

Account identities (Solana `Pubkey`s) are modelled as natural numbers;
the byte-lexicographic key order of the source corresponds to `Nat` order.
`vipers` macro semantics: `assert_keys!(a, b, label)` fails with a labeled
key mismatch when the keys differ; `invariant!(cond, msg)` fails with the
message when `cond` is false; `require!(cond, Err)` fails with the named
error code; `assert_ata!(acc, owner, mint, label)` fails when `acc` is not
the canonical associated token account of `(owner, mint)`.  All failures
short-circuit (the Rust `?` operator / early `return Err`).
-/

namespace Cpamm

/-- Account identity (Solana public key), modelled as a natural number. -/
abbrev Pubkey := Nat

/-- The error signals the validators can produce.  `Paused`,
`SwapTokensCannotBeEqual` and `SwapTokensNotSorted` are the named error
codes of the source; `keyMismatch` carries the label of a failed
`assert_keys!`, `ataMismatch` the label of a failed `assert_ata!`, and
`invariantFailed` the message of a failed `invariant!`. -/
inductive CpammError where
  | Paused : CpammError
  | SwapTokensCannotBeEqual : CpammError
  | SwapTokensNotSorted : CpammError
  | keyMismatch : String → CpammError
  | ataMismatch : String → CpammError
  | invariantFailed : String → CpammError
deriving DecidableEq, Repr

/-- `ProgramResult`: `Ok(())` or an error, as in the source. -/
abbrev ProgramResult := Except CpammError Unit

/-- An SPL token `Mint` account: its address plus the fields the
validators read (`decimals`, optional mint and freeze authorities). -/
structure Mint where
  key : Pubkey
  decimals : Nat
  mint_authority : Option Pubkey
  freeze_authority : Option Pubkey
deriving DecidableEq, Repr

/-- An SPL `TokenAccount`: its address plus the fields the validators
read (its `mint` and its `owner`). -/
structure TokenAccount where
  key : Pubkey
  mint : Pubkey
  owner : Pubkey
deriving DecidableEq, Repr

/-- Persisted configuration of one side of the pool (`SwapTokenInfo`):
the asset mint, the reserve account and the admin fee account. -/
structure SwapTokenInfo where
  mint : Pubkey
  reserves : Pubkey
  admin_fees : Pubkey
deriving DecidableEq, Repr

/-- The persisted pool state (`SwapInfo`) as read by the validators:
its own address, the paused flag, the pool-share mint and the two
token slots. -/
structure SwapInfo where
  key : Pubkey
  is_paused : Bool
  pool_mint : Pubkey
  token_0 : SwapTokenInfo
  token_1 : SwapTokenInfo
deriving DecidableEq, Repr

/-- The user context shared by swap/deposit/withdraw requests: it carries
the persisted `SwapInfo` being operated on. -/
structure SwapUserContext where
  swap : SwapInfo
deriving DecidableEq, Repr

/-- Modelled from the spec: the canonical associated token account, "the
single deterministic account derived from an (owner, asset) pair".  The
derivation function itself is the external SPL library function
`get_associated_token_address`, not code of this repository; it is
modelled as an injective pairing of the owner and mint keys. -/
def get_associated_token_address (owner : Pubkey) (mint : Pubkey) : Pubkey :=
  Nat.pair owner mint

/-- A plain swap-leg account pair (`SwapToken`): the user token account
and the declared reserve account. -/
structure SwapToken where
  user : TokenAccount
  reserve : TokenAccount
deriving DecidableEq, Repr

/-- A fee-bearing leg (`SwapTokenWithFees`): user token account, declared
reserve account and declared fee account. -/
structure SwapTokenWithFees where
  user : TokenAccount
  reserve : TokenAccount
  fees : TokenAccount
deriving DecidableEq, Repr

/-- A proposed token slot at pool creation (`InitSwapToken`): the
proposed mint, reserve account and fee account. -/
structure InitSwapToken where
  mint : Mint
  reserve : TokenAccount
  fees : TokenAccount
deriving DecidableEq, Repr

/-- `SwapToken::validate_for_swap` (plain slot validation): reserve key
must match the persisted reserves, the user account mint must match the
slot mint, and the user account must not be the reserve account. -/
def SwapToken.validate_for_swap (t : SwapToken) (swap_info : SwapTokenInfo) :
    ProgramResult :=
  if t.reserve.key ≠ swap_info.reserves then
    Except.error (CpammError.keyMismatch "reserve")
  else if t.user.mint ≠ swap_info.mint then
    Except.error (CpammError.keyMismatch "user.mint")
  else if ¬ (t.reserve.key ≠ t.user.key) then
    Except.error (CpammError.invariantFailed "user cannot be reserve account")
  else
    Except.ok ()

/-- `SwapTokenWithFees::validate_for_swap` (fee-bearing slot validation):
fee key must match the persisted admin fees, reserve key the persisted
reserves, user mint the slot mint, and the user account must be neither
the fee account nor the reserve account. -/
def SwapTokenWithFees.validate_for_swap (t : SwapTokenWithFees)
    (swap_info : SwapTokenInfo) : ProgramResult :=
  if t.fees.key ≠ swap_info.admin_fees then
    Except.error (CpammError.keyMismatch "fees")
  else if t.reserve.key ≠ swap_info.reserves then
    Except.error (CpammError.keyMismatch "reserve")
  else if t.user.mint ≠ swap_info.mint then
    Except.error (CpammError.keyMismatch "user.mint")
  else if ¬ (t.fees.key ≠ t.user.key) then
    Except.error (CpammError.invariantFailed "user cannot be fees account")
  else if ¬ (t.reserve.key ≠ t.user.key) then
    Except.error (CpammError.invariantFailed "user cannot be reserve account")
  else
    Except.ok ()

/-- `InitSwapToken::validate_for_swap` (initialization slot validation):
the fee account mint must equal the proposed mint, the fee account owner
must be the swap, the reserve must be the canonical associated token
account of `(swap, mint)`, and the fee account must differ from the
reserve account. -/
def InitSwapToken.validate_for_swap (t : InitSwapToken) (swap : Pubkey) :
    ProgramResult :=
  if t.fees.mint ≠ t.mint.key then
    Except.error (CpammError.keyMismatch "fees.mint")
  else if t.fees.owner ≠ swap then
    Except.error (CpammError.keyMismatch "fees.owner")
  else if t.reserve.key ≠ get_associated_token_address swap t.mint.key then
    Except.error (CpammError.ataMismatch "reserve")
  else if ¬ (t.fees.key ≠ t.reserve.key) then
    Except.error (CpammError.invariantFailed "fees cannot equal reserve")
  else
    Except.ok ()

/-- The swap request account set (`Swap`).  The leg field types are
declared outside `src/`; modelled from the spec: swap legs use plain
slot validation ("input side and output side each pass Plain Slot
Validation"), so `input` and `output` are plain `SwapToken` pairs. -/
structure Swap where
  user : SwapUserContext
  input : SwapToken
  output : SwapToken
deriving DecidableEq, Repr

/-- The swap-direction inference of `Swap::validate`: the selected
`(swap_input, swap_output)` persisted slots.  If the declared input
reserve matches the persisted token_0 reserves the input side is
token_0; otherwise the input side is token_1. -/
def Swap.direction (s : Swap) : SwapTokenInfo × SwapTokenInfo :=
  if s.input.reserve.key = s.user.swap.token_0.reserves then
    (s.user.swap.token_0, s.user.swap.token_1)
  else
    (s.user.swap.token_1, s.user.swap.token_0)

/-- `Swap::validate`: pool not paused, then the input and output legs
each pass plain slot validation against the inferred direction. -/
def Swap.validate (s : Swap) : ProgramResult :=
  if ¬ (¬ s.user.swap.is_paused) then
    Except.error CpammError.Paused
  else
    match s.input.validate_for_swap s.direction.1 with
    | Except.error e => Except.error e
    | Except.ok _ => s.output.validate_for_swap s.direction.2

/-- The withdraw request account set (`Withdraw`).  The leg field types
are declared outside `src/`; modelled from the spec: withdraw legs use
fee-bearing slot validation ("both asset sides pass Fee-bearing Slot
Validation against their persisted TokenSlot"). -/
structure Withdraw where
  user : SwapUserContext
  pool_mint : Mint
  input_lp : TokenAccount
  output_0 : SwapTokenWithFees
  output_1 : SwapTokenWithFees
deriving DecidableEq, Repr

/-- `Withdraw::validate`: pool not paused; supplied pool mint matches the
persisted pool mint; the LP input account mint matches the supplied pool
mint; both output legs pass fee-bearing slot validation. -/
def Withdraw.validate (w : Withdraw) : ProgramResult :=
  if ¬ (¬ w.user.swap.is_paused) then
    Except.error CpammError.Paused
  else if w.pool_mint.key ≠ w.user.swap.pool_mint then
    Except.error (CpammError.keyMismatch "pool_mint")
  else if w.input_lp.mint ≠ w.pool_mint.key then
    Except.error (CpammError.keyMismatch "input_lp.mint")
  else
    match w.output_0.validate_for_swap w.user.swap.token_0 with
    | Except.error e => Except.error e
    | Except.ok _ => w.output_1.validate_for_swap w.user.swap.token_1

/-- The deposit request account set (`Deposit`).  The leg field types
are declared outside `src/`; modelled from the spec: deposit legs use
fee-bearing slot validation ("both asset sides pass Fee-bearing Slot
Validation"). -/
structure Deposit where
  user : SwapUserContext
  input_0 : SwapTokenWithFees
  input_1 : SwapTokenWithFees
  pool_mint : Mint
  output_lp : TokenAccount
deriving DecidableEq, Repr

/-- `Deposit::validate`: pool not paused; both input legs pass
fee-bearing slot validation; supplied pool mint matches the persisted
pool mint; the LP output account mint matches the persisted pool mint;
the LP output account owner is not the swap itself. -/
def Deposit.validate (d : Deposit) : ProgramResult :=
  if ¬ (¬ d.user.swap.is_paused) then
    Except.error CpammError.Paused
  else
    match d.input_0.validate_for_swap d.user.swap.token_0 with
    | Except.error e => Except.error e
    | Except.ok _ =>
      match d.input_1.validate_for_swap d.user.swap.token_1 with
      | Except.error e => Except.error e
      | Except.ok _ =>
        if d.pool_mint.key ≠ d.user.swap.pool_mint then
          Except.error (CpammError.keyMismatch "pool_mint")
        else if d.output_lp.mint ≠ d.user.swap.pool_mint then
          Except.error (CpammError.keyMismatch "output_lp.mint")
        else if ¬ (d.output_lp.owner ≠ d.user.swap.key) then
          Except.error (CpammError.invariantFailed
            "output_lp.owner should not be the swap")
        else
          Except.ok ()

/-- The pool-creation request account set (`NewSwap`): the new swap
account (its key), the pool-share mint, the LP output account and the
two proposed token slots. -/
structure NewSwap where
  swap : Pubkey
  pool_mint : Mint
  output_lp : TokenAccount
  token_0 : InitSwapToken
  token_1 : InitSwapToken
deriving DecidableEq, Repr

/-- Outcome of a validator that can also panic: `none` models a Rust
panic (an `unwrap()` of a `None` authority), `some r` a normal return. -/
abbrev PanickyResult := Option ProgramResult

/-- `NewSwap::validate`.  The source calls
`self.pool_mint.mint_authority.unwrap()` and
`self.pool_mint.freeze_authority.unwrap()` with no presence check, so an
absent authority reached by control flow is a panic (`none`), not an
error return. -/
def NewSwap.validate (s : NewSwap) : PanickyResult :=
  let pool_mint_decimals := max s.token_0.mint.decimals s.token_1.mint.decimals
  if ¬ (s.pool_mint.decimals = pool_mint_decimals) then
    some (Except.error (CpammError.invariantFailed
      "pool mint decimals must be the max of token A and token B mint"))
  else
    match s.pool_mint.mint_authority with
    | none => none
    | some mint_auth =>
      if mint_auth ≠ s.swap then
        some (Except.error (CpammError.keyMismatch "pool_mint.mint_authority"))
      else
        match s.pool_mint.freeze_authority with
        | none => none
        | some freeze_auth =>
          if freeze_auth ≠ s.swap then
            some (Except.error
              (CpammError.keyMismatch "pool_mint.freeze_authority"))
          else if s.output_lp.mint ≠ s.pool_mint.key then
            some (Except.error (CpammError.keyMismatch "output_lp.mint"))
          else if ¬ (s.token_0.mint.key ≠ s.token_1.mint.key) then
            some (Except.error CpammError.SwapTokensCannotBeEqual)
          else if ¬ (s.token_0.mint.key < s.token_1.mint.key) then
            some (Except.error CpammError.SwapTokensNotSorted)
          else
            match s.token_0.validate_for_swap s.swap with
            | Except.error e => some (Except.error e)
            | Except.ok _ =>
              match s.token_1.validate_for_swap s.swap with
              | Except.error e => some (Except.error e)
              | Except.ok _ => some (Except.ok ())

/-- C3: plain slot validation performs exactly three checks in order —
(a) declared reserve key equals the persisted slot reserve, (b) user
account mint equals the persisted slot mint, (c) user account key
differs from the reserve key — short-circuiting on the first failure
(reserve mismatch, then mint mismatch, then self-dealing), and returns
`Ok` iff all three hold. -/
theorem plain_slot_three_ordered_checks (t : SwapToken)
    (swap_info : SwapTokenInfo) :
    (SwapToken.validate_for_swap t swap_info = Except.ok () ↔
      (t.reserve.key = swap_info.reserves ∧ t.user.mint = swap_info.mint ∧
        t.user.key ≠ t.reserve.key)) ∧
    (t.reserve.key ≠ swap_info.reserves →
      SwapToken.validate_for_swap t swap_info =
        Except.error (CpammError.keyMismatch "reserve")) ∧
    (t.reserve.key = swap_info.reserves → t.user.mint ≠ swap_info.mint →
      SwapToken.validate_for_swap t swap_info =
        Except.error (CpammError.keyMismatch "user.mint")) ∧
    (t.reserve.key = swap_info.reserves → t.user.mint = swap_info.mint →
      t.user.key = t.reserve.key →
      SwapToken.validate_for_swap t swap_info =
        Except.error (CpammError.invariantFailed
          "user cannot be reserve account")) := by
  unfold SwapToken.validate_for_swap
  refine ⟨?_, ?_, ?_, ?_⟩ <;> split_ifs with h1 h2 h3 <;> simp_all <;>
    intro h <;> simp_all [eq_comm]

/-- Closed instance of `plain_slot_three_ordered_checks`: a request whose
user account is the reserve account, all other checks passing, is
rejected with the self-dealing signal. -/
theorem plain_slot_three_ordered_checks_witness :
    SwapToken.validate_for_swap
      { user := { key := 7, mint := 10, owner := 20 },
        reserve := { key := 7, mint := 99, owner := 30 } }
      { mint := 10, reserves := 7, admin_fees := 8 } =
      Except.error (CpammError.invariantFailed
        "user cannot be reserve account") :=
  (plain_slot_three_ordered_checks
      { user := { key := 7, mint := 10, owner := 20 },
        reserve := { key := 7, mint := 99, owner := 30 } }
      { mint := 10, reserves := 7, admin_fees := 8 }).2.2.2 rfl rfl rfl

/-- C2: anti-self-dealing.  In plain-slot validation, a user account
whose key equals the persisted reserve key can never validate, and when
every other check of the slot passes the failure is the self-dealing
signal.  In fee-bearing-slot validation the same holds for a user
account equal to the persisted reserve key or to the persisted fee
account key. -/
theorem self_dealing_always_rejected :
    (∀ (t : SwapToken) (info : SwapTokenInfo),
      t.user.key = info.reserves →
        SwapToken.validate_for_swap t info ≠ Except.ok ()) ∧
    (∀ (t : SwapToken) (info : SwapTokenInfo),
      t.reserve.key = info.reserves → t.user.mint = info.mint →
      t.user.key = info.reserves →
        SwapToken.validate_for_swap t info =
          Except.error (CpammError.invariantFailed
            "user cannot be reserve account")) ∧
    (∀ (t : SwapTokenWithFees) (info : SwapTokenInfo),
      (t.user.key = info.reserves ∨ t.user.key = info.admin_fees) →
        SwapTokenWithFees.validate_for_swap t info ≠ Except.ok ()) ∧
    (∀ (t : SwapTokenWithFees) (info : SwapTokenInfo),
      t.fees.key = info.admin_fees → t.reserve.key = info.reserves →
      t.user.mint = info.mint → t.user.key = info.admin_fees →
        SwapTokenWithFees.validate_for_swap t info =
          Except.error (CpammError.invariantFailed
            "user cannot be fees account")) ∧
    (∀ (t : SwapTokenWithFees) (info : SwapTokenInfo),
      t.fees.key = info.admin_fees → t.reserve.key = info.reserves →
      t.user.mint = info.mint → t.user.key = info.reserves →
      t.user.key ≠ info.admin_fees →
        SwapTokenWithFees.validate_for_swap t info =
          Except.error (CpammError.invariantFailed
            "user cannot be reserve account")) := by
  refine ⟨?_, ?_, ?_, ?_, ?_⟩
  · intro t info
    unfold SwapToken.validate_for_swap
    split_ifs <;> simp_all [eq_comm]
  · intro t info
    unfold SwapToken.validate_for_swap
    split_ifs <;> simp_all [eq_comm]
  · intro t info
    unfold SwapTokenWithFees.validate_for_swap
    split_ifs <;> simp_all [eq_comm]
  · intro t info
    unfold SwapTokenWithFees.validate_for_swap
    split_ifs <;> simp_all [eq_comm]
  · intro t info
    unfold SwapTokenWithFees.validate_for_swap
    split_ifs <;> simp_all [eq_comm]

/-- Closed instance of `self_dealing_always_rejected`: a fee-bearing leg
whose user account is the fee account, all other checks passing, is
rejected with the self-dealing signal. -/
theorem self_dealing_always_rejected_witness :
    SwapTokenWithFees.validate_for_swap
      { user := { key := 8, mint := 10, owner := 20 },
        reserve := { key := 7, mint := 99, owner := 30 },
        fees := { key := 8, mint := 10, owner := 40 } }
      { mint := 10, reserves := 7, admin_fees := 8 } =
      Except.error (CpammError.invariantFailed
        "user cannot be fees account") :=
  self_dealing_always_rejected.2.2.2.1
    { user := { key := 8, mint := 10, owner := 20 },
      reserve := { key := 7, mint := 99, owner := 30 },
      fees := { key := 8, mint := 10, owner := 40 } }
    { mint := 10, reserves := 7, admin_fees := 8 } rfl rfl rfl rfl

/-- C4: initialization slot validation returns `Ok` iff the fee account
mint equals the proposed mint, the fee account owner equals the pool
identity, the reserve is the canonical associated token account of
(pool identity, proposed mint), and the fee account differs from the
reserve; in particular a proposed fee account equal to the proposed
reserve account is always rejected with some error. -/
theorem init_slot_checks (t : InitSwapToken) (swap : Pubkey) :
    (InitSwapToken.validate_for_swap t swap = Except.ok () ↔
      (t.fees.mint = t.mint.key ∧ t.fees.owner = swap ∧
        t.reserve.key = get_associated_token_address swap t.mint.key ∧
        t.fees.key ≠ t.reserve.key)) ∧
    (t.fees.key = t.reserve.key →
      ∃ e, InitSwapToken.validate_for_swap t swap = Except.error e) := by
  unfold InitSwapToken.validate_for_swap
  constructor
  · split_ifs <;> simp_all
  · intro h
    split_ifs <;> simp_all

/-- Closed instance of `init_slot_checks`: a proposed slot whose fee
account equals its reserve account is rejected. -/
theorem init_slot_checks_witness :
    ∃ e,
      InitSwapToken.validate_for_swap
        { mint := { key := 3, decimals := 6, mint_authority := none,
                    freeze_authority := none },
          reserve := { key := 12, mint := 3, owner := 9 },
          fees := { key := 12, mint := 3, owner := 9 } } 9 =
        Except.error e :=
  (init_slot_checks
      { mint := { key := 3, decimals := 6, mint_authority := none,
                  freeze_authority := none },
        reserve := { key := 12, mint := 3, owner := 9 },
        fees := { key := 12, mint := 3, owner := 9 } } 9).2 rfl

/-- C1: swap direction inference.  When the declared input reserve key
equals the persisted token_0 reserves, the validator selects
(token_0, token_1) as (input, output); in every other case it selects
(token_1, token_0); and when the declared reserve matches neither
persisted reserve (pool not paused) the request fails in the plain-slot
reserve check of the input leg with the reserve key-mismatch signal. -/
theorem swap_direction_inference (s : Swap) :
    (s.input.reserve.key = s.user.swap.token_0.reserves →
      Swap.direction s = (s.user.swap.token_0, s.user.swap.token_1)) ∧
    (s.input.reserve.key ≠ s.user.swap.token_0.reserves →
      Swap.direction s = (s.user.swap.token_1, s.user.swap.token_0)) ∧
    (s.user.swap.is_paused = false →
      s.input.reserve.key ≠ s.user.swap.token_0.reserves →
      s.input.reserve.key ≠ s.user.swap.token_1.reserves →
      Swap.validate s = Except.error (CpammError.keyMismatch "reserve")) := by
  refine ⟨?_, ?_, ?_⟩
  · intro h
    unfold Swap.direction
    simp [h]
  · intro h
    unfold Swap.direction
    simp [h]
  · intro hp h0 h1
    unfold Swap.validate
    rw [show Swap.direction s = (s.user.swap.token_1, s.user.swap.token_0) by
      unfold Swap.direction; simp [h0]]
    unfold SwapToken.validate_for_swap
    simp [hp, h1]

/-- Closed instance of `swap_direction_inference`: a swap request whose
declared input reserve matches neither persisted reserve fails with the
reserve key-mismatch signal of the input leg. -/
theorem swap_direction_inference_witness :
    Swap.validate
      { user := { swap := { key := 1, is_paused := false, pool_mint := 2,
                            token_0 := { mint := 3, reserves := 4, admin_fees := 5 },
                            token_1 := { mint := 6, reserves := 7, admin_fees := 8 } } },
        input := { user := { key := 9, mint := 3, owner := 10 },
                   reserve := { key := 11, mint := 3, owner := 1 } },
        output := { user := { key := 12, mint := 6, owner := 10 },
                    reserve := { key := 7, mint := 6, owner := 1 } } } =
      Except.error (CpammError.keyMismatch "reserve") :=
  (swap_direction_inference
    { user := { swap := { key := 1, is_paused := false, pool_mint := 2,
                          token_0 := { mint := 3, reserves := 4, admin_fees := 5 },
                          token_1 := { mint := 6, reserves := 7, admin_fees := 8 } } },
      input := { user := { key := 9, mint := 3, owner := 10 },
                 reserve := { key := 11, mint := 3, owner := 1 } },
      output := { user := { key := 12, mint := 6, owner := 10 },
                  reserve := { key := 7, mint := 6, owner := 1 } } }).2.2
    rfl (by decide) (by decide)

/-- C8: paused-pool rejection.  A swap, deposit or withdraw request
against a paused pool fails with the pool-paused signal, regardless of
every other account in the request (the check is first, so nothing can
mask it). -/
theorem paused_pool_rejected_first (s : Swap) (d : Deposit) (w : Withdraw) :
    (s.user.swap.is_paused = true →
      Swap.validate s = Except.error CpammError.Paused) ∧
    (d.user.swap.is_paused = true →
      Deposit.validate d = Except.error CpammError.Paused) ∧
    (w.user.swap.is_paused = true →
      Withdraw.validate w = Except.error CpammError.Paused) := by
  refine ⟨?_, ?_, ?_⟩
  · intro h
    unfold Swap.validate
    simp [h]
  · intro h
    unfold Deposit.validate
    simp [h]
  · intro h
    unfold Withdraw.validate
    simp [h]

/-- Closed instance of `paused_pool_rejected_first`: a swap request
against a paused pool is rejected with the pool-paused signal. -/
theorem paused_pool_rejected_first_witness :
    Swap.validate
      { user := { swap := { key := 1, is_paused := true, pool_mint := 2,
                            token_0 := { mint := 3, reserves := 4, admin_fees := 5 },
                            token_1 := { mint := 6, reserves := 7, admin_fees := 8 } } },
        input := { user := { key := 9, mint := 3, owner := 10 },
                   reserve := { key := 4, mint := 3, owner := 1 } },
        output := { user := { key := 12, mint := 6, owner := 10 },
                    reserve := { key := 7, mint := 6, owner := 1 } } } =
      Except.error CpammError.Paused :=
  (paused_pool_rejected_first
    { user := { swap := { key := 1, is_paused := true, pool_mint := 2,
                          token_0 := { mint := 3, reserves := 4, admin_fees := 5 },
                          token_1 := { mint := 6, reserves := 7, admin_fees := 8 } } },
      input := { user := { key := 9, mint := 3, owner := 10 },
                 reserve := { key := 4, mint := 3, owner := 1 } },
      output := { user := { key := 12, mint := 6, owner := 10 },
                  reserve := { key := 7, mint := 6, owner := 1 } } }
    { user := { swap := { key := 1, is_paused := false, pool_mint := 2,
                          token_0 := { mint := 3, reserves := 4, admin_fees := 5 },
                          token_1 := { mint := 6, reserves := 7, admin_fees := 8 } } },
      input_0 := { user := { key := 9, mint := 3, owner := 10 },
                   reserve := { key := 4, mint := 3, owner := 1 },
                   fees := { key := 5, mint := 3, owner := 1 } },
      input_1 := { user := { key := 12, mint := 6, owner := 10 },
                   reserve := { key := 7, mint := 6, owner := 1 },
                   fees := { key := 8, mint := 6, owner := 1 } },
      pool_mint := { key := 2, decimals := 6, mint_authority := some 1,
                     freeze_authority := some 1 },
      output_lp := { key := 13, mint := 2, owner := 10 } }
    { user := { swap := { key := 1, is_paused := false, pool_mint := 2,
                          token_0 := { mint := 3, reserves := 4, admin_fees := 5 },
                          token_1 := { mint := 6, reserves := 7, admin_fees := 8 } } },
      pool_mint := { key := 2, decimals := 6, mint_authority := some 1,
                     freeze_authority := some 1 },
      input_lp := { key := 14, mint := 2, owner := 10 },
      output_0 := { user := { key := 9, mint := 3, owner := 10 },
                    reserve := { key := 4, mint := 3, owner := 1 },
                    fees := { key := 5, mint := 3, owner := 1 } },
      output_1 := { user := { key := 12, mint := 6, owner := 10 },
                    reserve := { key := 7, mint := 6, owner := 1 },
                    fees := { key := 8, mint := 6, owner := 1 } } }).1
    rfl

/-- C6: both the deposit validator and the withdraw validator run
fee-bearing slot validation on both asset sides against the
corresponding persisted token slot: a request that validates has both
legs passing `SwapTokenWithFees.validate_for_swap`, and a leg failing
fee-bearing validation (the earlier checks passing) propagates its
error as the validator's outcome. -/
theorem deposit_withdraw_fee_bearing_legs (d : Deposit) (w : Withdraw) :
    (Deposit.validate d = Except.ok () →
      SwapTokenWithFees.validate_for_swap d.input_0 d.user.swap.token_0 =
        Except.ok () ∧
      SwapTokenWithFees.validate_for_swap d.input_1 d.user.swap.token_1 =
        Except.ok ()) ∧
    (d.user.swap.is_paused = false → ∀ e,
      SwapTokenWithFees.validate_for_swap d.input_0 d.user.swap.token_0 =
        Except.error e →
      Deposit.validate d = Except.error e) ∧
    (d.user.swap.is_paused = false →
      SwapTokenWithFees.validate_for_swap d.input_0 d.user.swap.token_0 =
        Except.ok () →
      ∀ e,
        SwapTokenWithFees.validate_for_swap d.input_1 d.user.swap.token_1 =
          Except.error e →
        Deposit.validate d = Except.error e) ∧
    (Withdraw.validate w = Except.ok () →
      SwapTokenWithFees.validate_for_swap w.output_0 w.user.swap.token_0 =
        Except.ok () ∧
      SwapTokenWithFees.validate_for_swap w.output_1 w.user.swap.token_1 =
        Except.ok ()) ∧
    (w.user.swap.is_paused = false → w.pool_mint.key = w.user.swap.pool_mint →
      w.input_lp.mint = w.pool_mint.key → ∀ e,
      SwapTokenWithFees.validate_for_swap w.output_0 w.user.swap.token_0 =
        Except.error e →
      Withdraw.validate w = Except.error e) ∧
    (w.user.swap.is_paused = false → w.pool_mint.key = w.user.swap.pool_mint →
      w.input_lp.mint = w.pool_mint.key →
      SwapTokenWithFees.validate_for_swap w.output_0 w.user.swap.token_0 =
        Except.ok () →
      ∀ e,
        SwapTokenWithFees.validate_for_swap w.output_1 w.user.swap.token_1 =
          Except.error e →
        Withdraw.validate w = Except.error e) := by
  refine ⟨?_, ?_, ?_, ?_, ?_, ?_⟩
  · intro h
    unfold Deposit.validate at h
    by_cases hp : d.user.swap.is_paused = true
    · simp [hp] at h
    · simp only [hp, not_true_eq_false, not_false_eq_true, ite_false,
        if_neg, not_not] at h
      cases h0 : SwapTokenWithFees.validate_for_swap d.input_0
          d.user.swap.token_0 with
      | error e => rw [h0] at h; simp at h
      | ok u =>
        cases u
        rw [h0] at h
        cases h1 : SwapTokenWithFees.validate_for_swap d.input_1
            d.user.swap.token_1 with
        | error e => rw [h1] at h; simp at h
        | ok v => cases v; exact ⟨rfl, rfl⟩
  · intro hp e h0
    unfold Deposit.validate
    rw [h0]
    simp [hp]
  · intro hp hok e h1
    unfold Deposit.validate
    rw [hok, h1]
    simp [hp]
  · intro h
    unfold Withdraw.validate at h
    split_ifs at h with hp hm hl
    cases h0 : SwapTokenWithFees.validate_for_swap w.output_0
        w.user.swap.token_0 with
    | error e => rw [h0] at h; simp at h
    | ok u =>
      cases u
      rw [h0] at h
      cases h1 : SwapTokenWithFees.validate_for_swap w.output_1
          w.user.swap.token_1 with
      | error e => rw [h1] at h; simp at h
      | ok v => cases v; exact ⟨rfl, rfl⟩
  · intro hp hm hl e h0
    unfold Withdraw.validate
    rw [h0]
    simp [hp, hm, hl]
  · intro hp hm hl hok e h1
    unfold Withdraw.validate
    rw [hok, h1]
    simp [hp, hm, hl]

/-- Closed instance of `deposit_withdraw_fee_bearing_legs`: a deposit
whose second leg declares the wrong fee account (the first leg and all
earlier checks passing) fails with that leg's fee key-mismatch. -/
theorem deposit_withdraw_fee_bearing_legs_witness :
    Deposit.validate
      { user := { swap := { key := 1, is_paused := false, pool_mint := 2,
                            token_0 := { mint := 3, reserves := 4, admin_fees := 5 },
                            token_1 := { mint := 6, reserves := 7, admin_fees := 8 } } },
        input_0 := { user := { key := 9, mint := 3, owner := 10 },
                     reserve := { key := 4, mint := 3, owner := 1 },
                     fees := { key := 5, mint := 3, owner := 1 } },
        input_1 := { user := { key := 12, mint := 6, owner := 10 },
                     reserve := { key := 7, mint := 6, owner := 1 },
                     fees := { key := 99, mint := 6, owner := 1 } },
        pool_mint := { key := 2, decimals := 6, mint_authority := some 1,
                       freeze_authority := some 1 },
        output_lp := { key := 13, mint := 2, owner := 10 } } =
      Except.error (CpammError.keyMismatch "fees") :=
  (deposit_withdraw_fee_bearing_legs
    { user := { swap := { key := 1, is_paused := false, pool_mint := 2,
                          token_0 := { mint := 3, reserves := 4, admin_fees := 5 },
                          token_1 := { mint := 6, reserves := 7, admin_fees := 8 } } },
      input_0 := { user := { key := 9, mint := 3, owner := 10 },
                   reserve := { key := 4, mint := 3, owner := 1 },
                   fees := { key := 5, mint := 3, owner := 1 } },
      input_1 := { user := { key := 12, mint := 6, owner := 10 },
                   reserve := { key := 7, mint := 6, owner := 1 },
                   fees := { key := 99, mint := 6, owner := 1 } },
      pool_mint := { key := 2, decimals := 6, mint_authority := some 1,
                     freeze_authority := some 1 },
      output_lp := { key := 13, mint := 2, owner := 10 } }
    { user := { swap := { key := 1, is_paused := false, pool_mint := 2,
                          token_0 := { mint := 3, reserves := 4, admin_fees := 5 },
                          token_1 := { mint := 6, reserves := 7, admin_fees := 8 } } },
      pool_mint := { key := 2, decimals := 6, mint_authority := some 1,
                     freeze_authority := some 1 },
      input_lp := { key := 14, mint := 2, owner := 10 },
      output_0 := { user := { key := 9, mint := 3, owner := 10 },
                    reserve := { key := 4, mint := 3, owner := 1 },
                    fees := { key := 5, mint := 3, owner := 1 } },
      output_1 := { user := { key := 12, mint := 6, owner := 10 },
                    reserve := { key := 7, mint := 6, owner := 1 },
                    fees := { key := 8, mint := 6, owner := 1 } } }).2.2.1
    rfl rfl (CpammError.keyMismatch "fees") rfl

/-- Characterization of a successful `NewSwap::validate`: it returns
`Ok` exactly when every pool-creation check passes. -/
theorem newSwap_validate_ok_iff (s : NewSwap) :
    NewSwap.validate s = some (Except.ok ()) ↔
      (s.pool_mint.decimals =
          max s.token_0.mint.decimals s.token_1.mint.decimals ∧
        s.pool_mint.mint_authority = some s.swap ∧
        s.pool_mint.freeze_authority = some s.swap ∧
        s.output_lp.mint = s.pool_mint.key ∧
        s.token_0.mint.key ≠ s.token_1.mint.key ∧
        s.token_0.mint.key < s.token_1.mint.key ∧
        s.token_0.validate_for_swap s.swap = Except.ok () ∧
        s.token_1.validate_for_swap s.swap = Except.ok ()) := by
  constructor
  · intro h
    unfold NewSwap.validate at h
    by_cases h1 : s.pool_mint.decimals =
        max s.token_0.mint.decimals s.token_1.mint.decimals
    case neg => simp [h1] at h
    rw [if_neg (not_not_intro h1)] at h
    rcases hma : s.pool_mint.mint_authority with _ | a <;> rw [hma] at h
    · simp at h
    by_cases h2 : a = s.swap
    case neg => simp [h2] at h
    subst h2
    rcases hfa : s.pool_mint.freeze_authority with _ | b <;> rw [hfa] at h
    · simp at h
    by_cases h3 : b = s.swap
    case neg => simp [h3] at h
    subst h3
    by_cases h4 : s.output_lp.mint = s.pool_mint.key
    case neg => simp [h4] at h
    by_cases h5 : s.token_0.mint.key = s.token_1.mint.key
    case pos => simp [h4, h5] at h
    by_cases h6 : s.token_0.mint.key < s.token_1.mint.key
    case neg => simp [h4, h5, h6] at h
    rcases hr0 : s.token_0.validate_for_swap s.swap with e | u <;>
      rw [hr0] at h
    · simp [h4, h5, h6] at h
    rcases hr1 : s.token_1.validate_for_swap s.swap with e | v <;>
      rw [hr1] at h
    · simp [h4, h5, h6] at h
    cases u
    cases v
    exact ⟨h1, rfl, rfl, h4, h5, h6, rfl, rfl⟩
  · rintro ⟨h1, h2, h3, h4, h5, h6, h7, h8⟩
    simp [NewSwap.validate, h1, h2, h3, h4, h5, h6, h7, h8]

/-- C5: canonical mint ordering at pool creation.  A request that passes
`NewSwap::validate` has distinct asset mint keys in strictly ascending
order; equal mints are rejected with `SwapTokensCannotBeEqual` and
distinct-but-unsorted mints with `SwapTokensNotSorted` (two distinct
signals), the checks being reached once the pool-mint checks pass. -/
theorem create_pool_mints_sorted (s : NewSwap) :
    (NewSwap.validate s = some (Except.ok ()) →
      s.token_0.mint.key ≠ s.token_1.mint.key ∧
      s.token_0.mint.key < s.token_1.mint.key) ∧
    (s.pool_mint.decimals =
        max s.token_0.mint.decimals s.token_1.mint.decimals →
      s.pool_mint.mint_authority = some s.swap →
      s.pool_mint.freeze_authority = some s.swap →
      s.output_lp.mint = s.pool_mint.key →
      (s.token_0.mint.key = s.token_1.mint.key →
        NewSwap.validate s =
          some (Except.error CpammError.SwapTokensCannotBeEqual)) ∧
      (s.token_0.mint.key ≠ s.token_1.mint.key →
        ¬ s.token_0.mint.key < s.token_1.mint.key →
        NewSwap.validate s =
          some (Except.error CpammError.SwapTokensNotSorted))) := by
  constructor
  · intro h
    have hc := (newSwap_validate_ok_iff s).mp h
    exact ⟨hc.2.2.2.2.1, hc.2.2.2.2.2.1⟩
  · intro h1 h2 h3 h4
    constructor
    · intro he
      simp [NewSwap.validate, h1, h2, h3, h4, he]
    · intro hne hlt
      simp [NewSwap.validate, h1, h2, h3, h4, hne, hlt]

/-- Closed instance of `create_pool_mints_sorted`: a creation request
presenting distinct but descending mints is rejected with the
not-sorted signal. -/
theorem create_pool_mints_sorted_witness :
    NewSwap.validate
      { swap := 1,
        pool_mint := { key := 2, decimals := 6, mint_authority := some 1,
                       freeze_authority := some 1 },
        output_lp := { key := 13, mint := 2, owner := 10 },
        token_0 := { mint := { key := 6, decimals := 6,
                               mint_authority := none,
                               freeze_authority := none },
                     reserve := { key := 4, mint := 6, owner := 1 },
                     fees := { key := 5, mint := 6, owner := 1 } },
        token_1 := { mint := { key := 3, decimals := 4,
                               mint_authority := none,
                               freeze_authority := none },
                     reserve := { key := 7, mint := 3, owner := 1 },
                     fees := { key := 8, mint := 3, owner := 1 } } } =
      some (Except.error CpammError.SwapTokensNotSorted) :=
  ((create_pool_mints_sorted
      { swap := 1,
        pool_mint := { key := 2, decimals := 6, mint_authority := some 1,
                       freeze_authority := some 1 },
        output_lp := { key := 13, mint := 2, owner := 10 },
        token_0 := { mint := { key := 6, decimals := 6,
                               mint_authority := none,
                               freeze_authority := none },
                     reserve := { key := 4, mint := 6, owner := 1 },
                     fees := { key := 5, mint := 6, owner := 1 } },
        token_1 := { mint := { key := 3, decimals := 4,
                               mint_authority := none,
                               freeze_authority := none },
                     reserve := { key := 7, mint := 3, owner := 1 },
                     fees := { key := 8, mint := 3, owner := 1 } } }).2
    rfl rfl rfl rfl).2 (by decide) (by decide)

/-- C9: pool-share mint configuration at creation.  A request that
passes `NewSwap::validate` has pool-mint decimals equal to the max of
the two asset mint decimals, both authorities equal to the pool, and
the LP output account's mint equal to the pool-share mint; each
violation of these (the authorities being present) is rejected with its
key-mismatch or invariant signal. -/
theorem create_pool_share_mint_config (s : NewSwap) :
    (NewSwap.validate s = some (Except.ok ()) →
      s.pool_mint.decimals =
          max s.token_0.mint.decimals s.token_1.mint.decimals ∧
        s.pool_mint.mint_authority = some s.swap ∧
        s.pool_mint.freeze_authority = some s.swap ∧
        s.output_lp.mint = s.pool_mint.key) ∧
    (s.pool_mint.decimals ≠
        max s.token_0.mint.decimals s.token_1.mint.decimals →
      NewSwap.validate s = some (Except.error (CpammError.invariantFailed
        "pool mint decimals must be the max of token A and token B mint"))) ∧
    (∀ a, s.pool_mint.decimals =
        max s.token_0.mint.decimals s.token_1.mint.decimals →
      s.pool_mint.mint_authority = some a → a ≠ s.swap →
      NewSwap.validate s =
        some (Except.error
          (CpammError.keyMismatch "pool_mint.mint_authority"))) ∧
    (∀ b, s.pool_mint.decimals =
        max s.token_0.mint.decimals s.token_1.mint.decimals →
      s.pool_mint.mint_authority = some s.swap →
      s.pool_mint.freeze_authority = some b → b ≠ s.swap →
      NewSwap.validate s =
        some (Except.error
          (CpammError.keyMismatch "pool_mint.freeze_authority"))) ∧
    (s.pool_mint.decimals =
        max s.token_0.mint.decimals s.token_1.mint.decimals →
      s.pool_mint.mint_authority = some s.swap →
      s.pool_mint.freeze_authority = some s.swap →
      s.output_lp.mint ≠ s.pool_mint.key →
      NewSwap.validate s =
        some (Except.error (CpammError.keyMismatch "output_lp.mint"))) := by
  refine ⟨?_, ?_, ?_, ?_, ?_⟩
  · intro h
    have hc := (newSwap_validate_ok_iff s).mp h
    exact ⟨hc.1, hc.2.1, hc.2.2.1, hc.2.2.2.1⟩
  · intro h1
    simp [NewSwap.validate, h1]
  · intro a h1 h2 h3
    simp [NewSwap.validate, h1, h2, h3]
  · intro b h1 h2 h3 h4
    simp [NewSwap.validate, h1, h2, h3, h4]
  · intro h1 h2 h3 h4
    simp [NewSwap.validate, h1, h2, h3, h4]

/-- Closed instance of `create_pool_share_mint_config`: a creation
request whose pool-share mint has the wrong mint authority is rejected
with the mint-authority key mismatch. -/
theorem create_pool_share_mint_config_witness :
    NewSwap.validate
      { swap := 1,
        pool_mint := { key := 2, decimals := 6, mint_authority := some 44,
                       freeze_authority := some 1 },
        output_lp := { key := 13, mint := 2, owner := 10 },
        token_0 := { mint := { key := 3, decimals := 4,
                               mint_authority := none,
                               freeze_authority := none },
                     reserve := { key := 4, mint := 3, owner := 1 },
                     fees := { key := 5, mint := 3, owner := 1 } },
        token_1 := { mint := { key := 6, decimals := 6,
                               mint_authority := none,
                               freeze_authority := none },
                     reserve := { key := 7, mint := 6, owner := 1 },
                     fees := { key := 8, mint := 6, owner := 1 } } } =
      some (Except.error
        (CpammError.keyMismatch "pool_mint.mint_authority")) :=
  (create_pool_share_mint_config
      { swap := 1,
        pool_mint := { key := 2, decimals := 6, mint_authority := some 44,
                       freeze_authority := some 1 },
        output_lp := { key := 13, mint := 2, owner := 10 },
        token_0 := { mint := { key := 3, decimals := 4,
                               mint_authority := none,
                               freeze_authority := none },
                     reserve := { key := 4, mint := 3, owner := 1 },
                     fees := { key := 5, mint := 3, owner := 1 } },
        token_1 := { mint := { key := 6, decimals := 6,
                               mint_authority := none,
                               freeze_authority := none },
                     reserve := { key := 7, mint := 6, owner := 1 },
                     fees := { key := 8, mint := 6, owner := 1 } } }).2.2.1
    44 rfl rfl (by decide)

/-- C7 counterexample: a create-pool request whose pool-mint
mint-authority is absent but whose decimals check fails returns the
decimals `Invalid` outcome — it does not crash — so absence of an
authority field does not imply a crash for every request. -/
theorem create_pool_missing_authority_counterexample :
    ({ swap := 1,
       pool_mint := { key := 2, decimals := 0, mint_authority := none,
                      freeze_authority := none },
       output_lp := { key := 13, mint := 2, owner := 10 },
       token_0 := { mint := { key := 3, decimals := 4,
                              mint_authority := none,
                              freeze_authority := none },
                    reserve := { key := 4, mint := 3, owner := 1 },
                    fees := { key := 5, mint := 3, owner := 1 } },
       token_1 := { mint := { key := 6, decimals := 6,
                              mint_authority := none,
                              freeze_authority := none },
                    reserve := { key := 7, mint := 6, owner := 1 },
                    fees := { key := 8, mint := 6, owner := 1 } } } :
      NewSwap).pool_mint.mint_authority = none ∧
    NewSwap.validate
      { swap := 1,
        pool_mint := { key := 2, decimals := 0, mint_authority := none,
                       freeze_authority := none },
        output_lp := { key := 13, mint := 2, owner := 10 },
        token_0 := { mint := { key := 3, decimals := 4,
                               mint_authority := none,
                               freeze_authority := none },
                     reserve := { key := 4, mint := 3, owner := 1 },
                     fees := { key := 5, mint := 3, owner := 1 } },
        token_1 := { mint := { key := 6, decimals := 6,
                               mint_authority := none,
                               freeze_authority := none },
                     reserve := { key := 7, mint := 6, owner := 1 },
                     fees := { key := 8, mint := 6, owner := 1 } } } =
      some (Except.error (CpammError.invariantFailed
        "pool mint decimals must be the max of token A and token B mint")) :=
  ⟨rfl, rfl⟩

/-- C7 (amended): the authority unwraps crash exactly when reached.  A
create-pool request that passes the decimals check with an absent
mint-authority crashes; one that passes the decimals and mint-authority
checks with an absent freeze-authority crashes; and when both authority
fields are present validation never crashes, so their presence is a
precondition for the validator to be total. -/
theorem create_pool_missing_authority_crash (s : NewSwap) :
    (s.pool_mint.decimals =
        max s.token_0.mint.decimals s.token_1.mint.decimals →
      s.pool_mint.mint_authority = none →
      NewSwap.validate s = none) ∧
    (s.pool_mint.decimals =
        max s.token_0.mint.decimals s.token_1.mint.decimals →
      s.pool_mint.mint_authority = some s.swap →
      s.pool_mint.freeze_authority = none →
      NewSwap.validate s = none) ∧
    (∀ a b, s.pool_mint.mint_authority = some a →
      s.pool_mint.freeze_authority = some b →
      NewSwap.validate s ≠ none) := by
  refine ⟨?_, ?_, ?_⟩
  · intro h1 hma
    simp [NewSwap.validate, h1, hma]
  · intro h1 hma hfa
    simp [NewSwap.validate, h1, hma, hfa]
  · intro a b hma hfa h
    unfold NewSwap.validate at h
    by_cases h1 : s.pool_mint.decimals =
        max s.token_0.mint.decimals s.token_1.mint.decimals
    case neg => simp [h1] at h
    rw [if_neg (not_not_intro h1), hma] at h
    by_cases h2 : a = s.swap
    case neg => simp [h2] at h
    rw [hfa] at h
    by_cases h3 : b = s.swap
    case neg => simp [h2, h3] at h
    by_cases h4 : s.output_lp.mint = s.pool_mint.key
    case neg => simp [h2, h3, h4] at h
    by_cases h5 : s.token_0.mint.key = s.token_1.mint.key
    case pos => simp [h2, h3, h4, h5] at h
    by_cases h6 : s.token_0.mint.key < s.token_1.mint.key
    case neg => simp [h2, h3, h4, h5, h6] at h
    rcases hr0 : s.token_0.validate_for_swap s.swap with e | u <;>
      rw [hr0] at h
    · simp [h2, h3, h4, h5, h6] at h
    rcases hr1 : s.token_1.validate_for_swap s.swap with e | v <;>
      rw [hr1] at h
    · simp [h2, h3, h4, h5, h6] at h
    simp [h2, h3, h4, h5, h6] at h

/-- Closed instance of `create_pool_missing_authority_crash`: a request
that passes the decimals check but has no mint-authority crashes. -/
theorem create_pool_missing_authority_crash_witness :
    NewSwap.validate
      { swap := 1,
        pool_mint := { key := 2, decimals := 6, mint_authority := none,
                       freeze_authority := none },
        output_lp := { key := 13, mint := 2, owner := 10 },
        token_0 := { mint := { key := 3, decimals := 4,
                               mint_authority := none,
                               freeze_authority := none },
                     reserve := { key := 4, mint := 3, owner := 1 },
                     fees := { key := 5, mint := 3, owner := 1 } },
        token_1 := { mint := { key := 6, decimals := 6,
                               mint_authority := none,
                               freeze_authority := none },
                     reserve := { key := 7, mint := 6, owner := 1 },
                     fees := { key := 8, mint := 6, owner := 1 } } } = none :=
  (create_pool_missing_authority_crash
      { swap := 1,
        pool_mint := { key := 2, decimals := 6, mint_authority := none,
                       freeze_authority := none },
        output_lp := { key := 13, mint := 2, owner := 10 },
        token_0 := { mint := { key := 3, decimals := 4,
                               mint_authority := none,
                               freeze_authority := none },
                     reserve := { key := 4, mint := 3, owner := 1 },
                     fees := { key := 5, mint := 3, owner := 1 } },
        token_1 := { mint := { key := 6, decimals := 6,
                               mint_authority := none,
                               freeze_authority := none },
                     reserve := { key := 7, mint := 6, owner := 1 },
                     fees := { key := 8, mint := 6, owner := 1 } } }).1
    rfl rfl

/-- C10: deposit self-ownership rejection.  A deposit request that
validates has an LP output account not owned by the pool itself, and
when every earlier check passes an LP output account owned by the pool
is rejected with the self-ownership invariant signal. -/
theorem deposit_self_owned_lp_rejected (d : Deposit) :
    (Deposit.validate d = Except.ok () →
      d.output_lp.owner ≠ d.user.swap.key) ∧
    (d.user.swap.is_paused = false →
      SwapTokenWithFees.validate_for_swap d.input_0 d.user.swap.token_0 =
        Except.ok () →
      SwapTokenWithFees.validate_for_swap d.input_1 d.user.swap.token_1 =
        Except.ok () →
      d.pool_mint.key = d.user.swap.pool_mint →
      d.output_lp.mint = d.user.swap.pool_mint →
      d.output_lp.owner = d.user.swap.key →
      Deposit.validate d = Except.error (CpammError.invariantFailed
        "output_lp.owner should not be the swap")) := by
  constructor
  · intro h
    unfold Deposit.validate at h
    by_cases hp : d.user.swap.is_paused = true
    · simp [hp] at h
    · simp only [hp, not_true_eq_false, not_false_eq_true, ite_false,
        if_neg, not_not] at h
      rcases h0 : SwapTokenWithFees.validate_for_swap d.input_0
          d.user.swap.token_0 with e | u <;> rw [h0] at h
      · simp at h
      rcases h1 : SwapTokenWithFees.validate_for_swap d.input_1
          d.user.swap.token_1 with e | v <;> rw [h1] at h
      · simp at h
      split_ifs at h <;> simp_all
  · intro hp h0 h1 hm hl ho
    unfold Deposit.validate
    rw [h0, h1]
    simp [hp, hm, hl, ho]

/-- Closed instance of `deposit_self_owned_lp_rejected`: a deposit whose
LP output account is owned by the pool, every other check passing, is
rejected with the self-ownership signal. -/
theorem deposit_self_owned_lp_rejected_witness :
    Deposit.validate
      { user := { swap := { key := 1, is_paused := false, pool_mint := 2,
                            token_0 := { mint := 3, reserves := 4, admin_fees := 5 },
                            token_1 := { mint := 6, reserves := 7, admin_fees := 8 } } },
        input_0 := { user := { key := 9, mint := 3, owner := 10 },
                     reserve := { key := 4, mint := 3, owner := 1 },
                     fees := { key := 5, mint := 3, owner := 1 } },
        input_1 := { user := { key := 12, mint := 6, owner := 10 },
                     reserve := { key := 7, mint := 6, owner := 1 },
                     fees := { key := 8, mint := 6, owner := 1 } },
        pool_mint := { key := 2, decimals := 6, mint_authority := some 1,
                       freeze_authority := some 1 },
        output_lp := { key := 13, mint := 2, owner := 1 } } =
      Except.error (CpammError.invariantFailed
        "output_lp.owner should not be the swap") :=
  (deposit_self_owned_lp_rejected
      { user := { swap := { key := 1, is_paused := false, pool_mint := 2,
                            token_0 := { mint := 3, reserves := 4, admin_fees := 5 },
                            token_1 := { mint := 6, reserves := 7, admin_fees := 8 } } },
        input_0 := { user := { key := 9, mint := 3, owner := 10 },
                     reserve := { key := 4, mint := 3, owner := 1 },
                     fees := { key := 5, mint := 3, owner := 1 } },
        input_1 := { user := { key := 12, mint := 6, owner := 10 },
                     reserve := { key := 7, mint := 6, owner := 1 },
                     fees := { key := 8, mint := 6, owner := 1 } },
        pool_mint := { key := 2, decimals := 6, mint_authority := some 1,
                       freeze_authority := some 1 },
        output_lp := { key := 13, mint := 2, owner := 1 } }).2
    rfl rfl rfl rfl rfl rfl

end Cpamm
